import Mathlib

/-!
Shallow embedding of the elmon per-metric scheduling and execution engine:
the retry loop of `scheduler.executeTaskWithRetries`, the `Start`/`Stop`
state management of `TaskScheduler`, the tick dispatch `runLoop`, the SQL
metric execution contract (`sql.ExecuteMetricValueGetScript`), the collector
dispatch (`collector.ProcessMetric` and the routines it selects), and the
partition-maintenance function `create_metric_partition` from `init.sql`.
-/

deriving instance DecidableEq for Except

namespace Elmon

/-! ## Scheduler retry loop (`scheduler.go`, `executeTaskWithRetries`)

The task function, the context-cancellation checks before each attempt and
the cancellation of the inter-retry wait are inputs of one cycle; we record
them as Boolean-valued functions of the attempt index. -/

/-- Environment of one execution cycle: `taskResult i` is `true` when the
task function returns `nil` (success) at attempt `i`; `cancelledBefore i`
is `true` when `ctx.Err() != nil` at the check preceding attempt `i`;
`cancelledDuringWait i` is `true` when `ctx.Done()` fires before the retry
timer during the wait following attempt `i`. -/
structure CycleEnv where
  taskResult : Nat → Bool
  cancelledBefore : Nat → Bool
  cancelledDuringWait : Nat → Bool

/-- How one cycle of `executeTaskWithRetries` terminates. -/
inductive CycleExit where
  | aborted
  | succeeded
  | failedPermanently
deriving DecidableEq, Repr

/-- Observable outcome of one cycle: how it exited, how many times the task
function was invoked, and how many permanent-failure log events were
emitted (the final `Logger.Error` of `executeTaskWithRetries`). -/
structure CycleResult where
  exit : CycleExit
  invocations : Nat
  permanentFailureLogs : Nat
deriving DecidableEq, Repr

/-- The loop `for attempt := 0; attempt <= MaxRetries; attempt++` of
`executeTaskWithRetries`, with `remaining` the number of loop iterations
still permitted (`MaxRetries + 1 - attempt` in the source) and `invoked`
the number of task invocations so far.  Falling out of the loop emits the
permanent-failure log; a cancellation observed before an attempt or during
the inter-retry wait returns without that log; a `nil` task result returns
immediately. -/
def runAttempts (env : CycleEnv) : Nat → Nat → Nat → CycleResult
  | _, 0, invoked => ⟨CycleExit.failedPermanently, invoked, 1⟩
  | attempt, r + 1, invoked =>
    if env.cancelledBefore attempt then ⟨CycleExit.aborted, invoked, 0⟩
    else if env.taskResult attempt then ⟨CycleExit.succeeded, invoked + 1, 0⟩
    else
      match r with
      | 0 => ⟨CycleExit.failedPermanently, invoked + 1, 1⟩
      | r' + 1 =>
        if env.cancelledDuringWait attempt then ⟨CycleExit.aborted, invoked + 1, 0⟩
        else runAttempts env (attempt + 1) (r' + 1) (invoked + 1)

/-- `executeTaskWithRetries`: run the retry loop with the attempt budget
`MaxRetries + 1`.  `MaxRetries` is a Go `int`; a negative value makes the
loop body run zero times and the permanent-failure log still fires, which
`Int.toNat` reproduces. -/
def executeTaskWithRetries (env : CycleEnv) (maxRetries : Int) : CycleResult :=
  runAttempts env 0 (maxRetries + 1).toNat 0

/-! ## Scheduler state management (`scheduler.go`, `Start` / `Stop`) and the
tick dispatch loop (`runLoop`) -/

/-- The mutex-protected bookkeeping of `TaskScheduler` relevant to start,
stop and the one-shot disable flag. -/
structure SchedulerState where
  isRunning : Bool
  isDisabled : Bool
  tickerActive : Bool
deriving DecidableEq, Repr

/-- The errors `Start` can return. -/
inductive StartError where
  | alreadyRunning
  | nilTask
  | invalidInterval
deriving DecidableEq, Repr

/-- State of a freshly constructed scheduler (`NewTaskScheduler`). -/
def newTaskSchedulerState : SchedulerState := ⟨false, false, false⟩

/-- `TaskScheduler.Start`: returns the updated state, the returned error if
any, and whether the `runLoop` goroutine was launched (no cycle can ever be
dispatched unless it was).  Mirrors the source order: the already-running
and nil-task checks come before `isRunning` is set, but the interval
validation comes after, so a non-positive interval returns an error with
`isRunning` left `true`. -/
def Start (taskNil : Bool) (interval : Int) (s : SchedulerState) :
    SchedulerState × Option StartError × Bool :=
  if s.isRunning then (s, some StartError.alreadyRunning, false)
  else if taskNil then (s, some StartError.nilTask, false)
  else
    let s1 := { s with isRunning := true }
    if interval ≤ 0 then (s1, some StartError.invalidInterval, false)
    else ({ s1 with tickerActive := true }, none, true)

/-- `TaskScheduler.Stop`: a no-op when not running; otherwise stops the
ticker, signals the loop and clears `isRunning` so `Start` can be called
again. -/
def Stop (s : SchedulerState) : SchedulerState :=
  if s.isRunning then { s with isRunning := false, tickerActive := false }
  else s

/-- Events observed by `runLoop` and the mutex-holding control methods, in
program order: ticker ticks, `DisableNextExecution()` calls,
`EnableExecution()` calls. -/
inductive LoopEvent where
  | tick
  | disableNext
  | enable
deriving DecidableEq, Repr

/-- The `runLoop` tick branch together with the flag-setting control
methods: given the current `isDisabled` flag and the event sequence,
produce for each tick whether a cycle was dispatched.  On a tick the flag
is read and reset immediately, and the cycle is dispatched exactly when the
flag was clear. -/
def runLoop (isDisabled : Bool) : List LoopEvent → List Bool
  | [] => []
  | LoopEvent.tick :: rest => (!isDisabled) :: runLoop false rest
  | LoopEvent.disableNext :: rest => runLoop true rest
  | LoopEvent.enable :: rest => runLoop false rest

/-! ## SQL metric execution contract (`sql/metricvalue.go`,
`ExecuteMetricValueGetScript`) -/

/-- The distinct error conditions `ExecuteMetricValueGetScript` returns,
one per `fmt.Errorf` site. -/
inductive MetricScriptError where
  | queryTimedOut
  | executeFailed
  | columnTypesFailed
  | wrongColumnCount (n : Nat)
  | wrongColumnType (t : String)
  | zeroRowsIterationError
  | scanFailed
  | moreThanOneRow
  | errorAfterIteration
deriving DecidableEq, Repr

/-- The result set the driver delivers for the script: the
`DatabaseTypeName` of each column, the successfully delivered rows (each
carrying the single column's value, `none` standing for SQL `NULL`), and
whether iteration terminated with a driver error (`rows.Err() != nil`). -/
structure QueryResult where
  colTypes : List String
  rows : List (Option String)
  iterErr : Bool
deriving DecidableEq, Repr

/-- Outcome of `db.QueryContext`: an execution failure (with or without the
context deadline having been exceeded), a failure of `rows.ColumnTypes()`,
or a result set. -/
inductive QueryOutcome where
  | execFailure (deadlineExceeded : Bool)
  | colTypesFailure
  | ok (res : QueryResult)
deriving DecidableEq, Repr

/-- `strings.ToLower` as the source applies it to the driver's column type
name, computed over the character list so it evaluates by reduction. -/
def toLowerStr (s : String) : String := String.mk (s.data.map Char.toLower)

/-- `ExecuteMetricValueGetScript`: checks in source order — query error
(timeout reported distinctly), column-type metadata error, column count,
JSON-family column type, then row retrieval.  `Except.ok none` is the `nil`
`json.RawMessage` the Go function returns both for a clean zero-row result
and for a SQL `NULL` value; `Except.ok (some v)` is a non-nil payload. -/
def ExecuteMetricValueGetScript (q : QueryOutcome) :
    Except MetricScriptError (Option String) :=
  match q with
  | QueryOutcome.execFailure true => Except.error MetricScriptError.queryTimedOut
  | QueryOutcome.execFailure false => Except.error MetricScriptError.executeFailed
  | QueryOutcome.colTypesFailure => Except.error MetricScriptError.columnTypesFailed
  | QueryOutcome.ok res =>
    match res.colTypes with
    | [t] =>
      let tl := toLowerStr t
      if tl ≠ "jsonb" ∧ tl ≠ "json" then
        Except.error (MetricScriptError.wrongColumnType tl)
      else
        match res.rows with
        | [] =>
          if res.iterErr then Except.error MetricScriptError.zeroRowsIterationError
          else Except.ok none
        | v :: rest =>
          if rest ≠ [] then Except.error MetricScriptError.moreThanOneRow
          else if res.iterErr then Except.error MetricScriptError.errorAfterIteration
          else Except.ok v
    | other => Except.error (MetricScriptError.wrongColumnCount other.length)

/-! ## Collector dispatch (`collector/callmethod.go`, `ProcessMetric`,
`executeSQLMetric`, `executeGoFuncMetric`, `collectPostgresUptime`) -/

/-- The fields of `collector.MetricTask` the execution path reads. -/
structure MetricTask where
  serverName : String
  metricName : String
  serverId : Int
  metricId : Int
  collectionType : String
  sqlFile : String
  goFunction : String
deriving DecidableEq, Repr

/-- One call of `sql.InsertMetricValue`, recording the ids and the JSON
payload passed to the insert. -/
structure InsertCall where
  metricId : Int
  serverId : Int
  value : String
deriving DecidableEq, Repr

/-- The errors a collection attempt can return to the scheduler. -/
inductive CollectError where
  | badPayload
  | unknownCollectionType (t : String)
  | unknownGoFunction (name : String)
  | fileReadError
  | scriptError (e : MetricScriptError)
  | insertError
deriving DecidableEq, Repr

/-- External behaviour an `executeSQLMetric` attempt observes: whether
`os.ReadFile` succeeds, the outcome of running the script, and whether
`InsertMetricValue` succeeds when called. -/
structure SqlWorld where
  fileOk : Bool
  query : QueryOutcome
  insertOk : Bool
deriving DecidableEq, Repr

/-- `executeSQLMetric`: read the script file, run it through
`ExecuteMetricValueGetScript`, skip the insert when the value is `nil`,
otherwise insert it.  The second component lists the `InsertMetricValue`
calls made by the attempt. -/
def executeSQLMetric (task : MetricTask) (w : SqlWorld) :
    Except CollectError Unit × List InsertCall :=
  if !w.fileOk then (Except.error CollectError.fileReadError, [])
  else
    match ExecuteMetricValueGetScript w.query with
    | Except.error e => (Except.error (CollectError.scriptError e), [])
    | Except.ok none => (Except.ok (), [])
    | Except.ok (some v) =>
      if w.insertOk then (Except.ok (), [⟨task.metricId, task.serverId, v⟩])
      else (Except.error CollectError.insertError, [⟨task.metricId, task.serverId, v⟩])

/-- External behaviour a `collectPostgresUptime` attempt observes: the
outcome of the uptime query, and whether the sentinel-zero insert and the
actual-value insert succeed when called. -/
structure UptimeWorld where
  query : QueryOutcome
  insertZeroOk : Bool
  insertValueOk : Bool
deriving DecidableEq, Repr

/-- The sentinel payload `json.RawMessage` literal the uptime routine
inserts when the probe fails. -/
def zeroUptimeValue : String := "\x7b\"value\": 0\x7d"

/-- `collectPostgresUptime`: query the uptime; on any query error insert
the sentinel zero value and report success unless that insert itself
fails, in which case return the insert error; on success insert the value
unless it is `nil`. -/
def collectPostgresUptime (task : MetricTask) (w : UptimeWorld) :
    Except CollectError Unit × List InsertCall :=
  match ExecuteMetricValueGetScript w.query with
  | Except.error _ =>
    if w.insertZeroOk then
      (Except.ok (), [⟨task.metricId, task.serverId, zeroUptimeValue⟩])
    else
      (Except.error CollectError.insertError,
        [⟨task.metricId, task.serverId, zeroUptimeValue⟩])
  | Except.ok none => (Except.ok (), [])
  | Except.ok (some v) =>
    if w.insertValueOk then (Except.ok (), [⟨task.metricId, task.serverId, v⟩])
    else (Except.error CollectError.insertError, [⟨task.metricId, task.serverId, v⟩])

/-- `executeGoFuncMetric`: dispatch by the configured function name; only
`collectPostgresUptime` is known, any other name returns the
not-implemented error. -/
def executeGoFuncMetric (task : MetricTask) (w : UptimeWorld) :
    Except CollectError Unit × List InsertCall :=
  if task.goFunction = "collectPostgresUptime" then collectPostgresUptime task w
  else (Except.error (CollectError.unknownGoFunction task.goFunction), [])

/-- The external behaviour one `ProcessMetric` call can observe. -/
structure World where
  sqlWorld : SqlWorld
  uptimeWorld : UptimeWorld
deriving DecidableEq, Repr

/-- `ProcessMetric`, the scheduler's task function: type-assert the
payload (`none` models a payload that is not a `*MetricTask`), then
dispatch on `CollectionType`. -/
def ProcessMetric (payload : Option MetricTask) (w : World) :
    Except CollectError Unit × List InsertCall :=
  match payload with
  | none => (Except.error CollectError.badPayload, [])
  | some task =>
    if task.collectionType = "sql" then executeSQLMetric task w.sqlWorld
    else if task.collectionType = "go_func" then executeGoFuncMetric task w.uptimeWorld
    else (Except.error (CollectError.unknownCollectionType task.collectionType), [])

/-- `true` exactly when the attempt returned `nil` to the scheduler. -/
def attemptOk (r : Except CollectError Unit × List InsertCall) : Bool :=
  match r.1 with
  | Except.ok _ => true
  | Except.error _ => false

/-! ## Partition maintenance (`init.sql`, `create_metric_partition`) -/

/-- PostgreSQL `format()` type specifiers: only `s`, `I`, `L` (and `%%`)
are recognised, case-sensitively; any other character after `%` raises
`unrecognized format() type specifier`. -/
def pgFormatSpecOk (c : Char) : Bool :=
  c = 's' ∨ c = 'I' ∨ c = 'L' ∨ c = '%'

/-- Whether every `%` in a `format()` string is followed by a recognised
type specifier (the strings used here carry no positional or width
syntax). -/
def pgFormatValid : List Char → Bool
  | [] => true
  | '%' :: c :: rest => pgFormatSpecOk c && pgFormatValid rest
  | ['%'] => false
  | _ :: rest => pgFormatValid rest

/-- The format string of the `execute format(...)` in
`create_metric_partition`. -/
def createPartitionFmt : String :=
  "create table %i partition of metric_value for values from (%l) to (%l)"

/-- The format string of the `execute format(...)` in
`drop_old_metric_partitions`. -/
def dropPartitionFmt : String := "DROP TABLE IF EXISTS %I"

/-- A raised PL/pgSQL error (here: `format()` rejecting a specifier). -/
inductive PgError where
  | unrecognizedFormatSpecifier
deriving DecidableEq, Repr

/-- One iteration of the partition-creation loop: partitions are
identified by their month (the deterministic `metric_value_YYYY_MM` name);
if the month's partition already exists nothing happens, otherwise the
`execute format(...)` runs — creating the table when the format string is
valid and raising the `format()` error when it is not. -/
def createPartitionStep (existing : List Nat) (month : Nat) :
    Except PgError (List Nat) :=
  if month ∈ existing then Except.ok existing
  else if pgFormatValid createPartitionFmt.toList then Except.ok (month :: existing)
  else Except.error PgError.unrecognizedFormatSpecifier

/-- The loop `for i in 0..month_forward` of `create_metric_partition`,
iterating over months `currentMonth + i`. -/
def createPartitionLoop (currentMonth : Nat) (existing : List Nat) :
    Nat → Nat → Except PgError (List Nat)
  | i, 0 =>
    createPartitionStep existing (currentMonth + i)
  | i, steps + 1 =>
    match createPartitionStep existing (currentMonth + i) with
    | Except.error e => Except.error e
    | Except.ok ex => createPartitionLoop currentMonth ex (i + 1) steps

/-- `create_metric_partition(month_forward)`: run the creation loop from
the current month through `monthForward` months ahead over the set of
already-existing partitions. -/
def create_metric_partition (currentMonth : Nat) (monthForward : Nat)
    (existing : List Nat) : Except PgError (List Nat) :=
  createPartitionLoop currentMonth existing 0 monthForward

/-- The contract-violation subset of the script errors: wrong row or
column count, wrong column type (spec §7 taxonomy). -/
def contractViolation : MetricScriptError → Bool
  | MetricScriptError.wrongColumnCount _ => true
  | MetricScriptError.wrongColumnType _ => true
  | MetricScriptError.moreThanOneRow => true
  | _ => false

/-- A `go_func` task whose function name resolves to no built-in routine. -/
def unknownFuncTask : MetricTask :=
  ⟨"srv1", "metric1", 1, 2, "go_func", "", "collectUptime"⟩

/-- A `sql` task used for concrete instances. -/
def sqlTask : MetricTask :=
  ⟨"srv1", "metric1", 1, 2, "sql", "metric1.sql", ""⟩

/-- A `go_func` task bound to the built-in uptime routine. -/
def uptimeTask : MetricTask :=
  ⟨"srv1", "uptime", 1, 3, "go_func", "", "collectPostgresUptime"⟩

/-- A benign external behaviour for concrete instances. -/
def world0 : World :=
  ⟨⟨true, QueryOutcome.ok ⟨["jsonb"], [some "1"], false⟩, true⟩,
    ⟨QueryOutcome.ok ⟨["jsonb"], [some "1"], false⟩, true, true⟩⟩

/-! ## Lemmas about the retry loop -/

/-- When every attempt fails and no cancellation is ever observed, the loop
consumes its whole budget and emits one permanent-failure log. -/
lemma runAttempts_allFail (env : CycleEnv)
    (hf : ∀ i, env.taskResult i = false)
    (hb : ∀ i, env.cancelledBefore i = false)
    (hw : ∀ i, env.cancelledDuringWait i = false) :
    ∀ r attempt inv, runAttempts env attempt r inv =
      ⟨CycleExit.failedPermanently, inv + r, 1⟩ := by
  intro r
  induction r with
  | zero =>
    intro attempt inv
    simp [runAttempts]
  | succ n ih =>
    intro attempt inv
    cases n with
    | zero => simp [runAttempts, hf, hb]
    | succ m =>
      simp only [runAttempts, hf, hb, hw, Bool.false_eq_true, if_false]
      rw [ih (attempt + 1) (inv + 1)]
      congr 1
      omega
/-- When no cancellation is observed, the first successful attempt (index
`k`, all earlier attempts failing) ends the cycle at once with `k + 1`
invocations and no permanent-failure log. -/
lemma runAttempts_firstSuccess (env : CycleEnv)
    (hb : ∀ i, env.cancelledBefore i = false)
    (hw : ∀ i, env.cancelledDuringWait i = false) :
    ∀ k attempt inv r, (∀ i, i < k → env.taskResult (attempt + i) = false) →
      env.taskResult (attempt + k) = true → k < r →
      runAttempts env attempt r inv = ⟨CycleExit.succeeded, inv + k + 1, 0⟩ := by
  intro k
  induction k with
  | zero =>
    intro attempt inv r hfail hsucc hlt
    have h : env.taskResult attempt = true := by simpa using hsucc
    match r, hlt with
    | 1, _ => simp [runAttempts, hb, h]
    | m + 2, _ => simp [runAttempts, hb, h]
  | succ k ih =>
    intro attempt inv r hfail hsucc hlt
    match r, hlt with
    | m + 2, _ =>
      have h0 : env.taskResult attempt = false := by simpa using hfail 0 (by omega)
      have hstep := ih (attempt + 1) (inv + 1) (m + 1)
        (fun i hi => by
          rw [show attempt + 1 + i = attempt + (i + 1) by omega]
          exact hfail (i + 1) (by omega))
        (by
          rw [show attempt + 1 + k = attempt + (k + 1) by omega]
          exact hsucc)
        (by omega)
      simp only [runAttempts, hb, h0, hw, Bool.false_eq_true, if_false]
      rw [hstep]
      congr 1
      omega

/-- A cancellation observed at the check preceding attempt `k` (all earlier
attempts failing, no earlier cancellation) aborts the cycle with `k`
invocations and no permanent-failure log. -/
lemma runAttempts_cancelBefore (env : CycleEnv)
    (hw : ∀ i, env.cancelledDuringWait i = false) :
    ∀ k attempt inv r, (∀ i, i < k → env.taskResult (attempt + i) = false) →
      (∀ i, i < k → env.cancelledBefore (attempt + i) = false) →
      env.cancelledBefore (attempt + k) = true → k < r →
      runAttempts env attempt r inv = ⟨CycleExit.aborted, inv + k, 0⟩ := by
  intro k
  induction k with
  | zero =>
    intro attempt inv r hfail hnb hcan hlt
    have h : env.cancelledBefore attempt = true := by simpa using hcan
    match r, hlt with
    | 1, _ => simp [runAttempts, h]
    | m + 2, _ => simp [runAttempts, h]
  | succ k ih =>
    intro attempt inv r hfail hnb hcan hlt
    match r, hlt with
    | m + 2, _ =>
      have h0 : env.taskResult attempt = false := by simpa using hfail 0 (by omega)
      have hb0 : env.cancelledBefore attempt = false := by simpa using hnb 0 (by omega)
      have hstep := ih (attempt + 1) (inv + 1) (m + 1)
        (fun i hi => by
          rw [show attempt + 1 + i = attempt + (i + 1) by omega]
          exact hfail (i + 1) (by omega))
        (fun i hi => by
          rw [show attempt + 1 + i = attempt + (i + 1) by omega]
          exact hnb (i + 1) (by omega))
        (by
          rw [show attempt + 1 + k = attempt + (k + 1) by omega]
          exact hcan)
        (by omega)
      simp only [runAttempts, hb0, h0, hw, Bool.false_eq_true, if_false]
      rw [hstep]
      congr 1
      omega

/-- A cancellation observed during the inter-retry wait following attempt
`k` (attempts `0..k` failing, no earlier cancellation, an attempt still
remaining) aborts the cycle with `k + 1` invocations and no
permanent-failure log. -/
lemma runAttempts_cancelDuringWait (env : CycleEnv) :
    ∀ k attempt inv r, (∀ i, i ≤ k → env.taskResult (attempt + i) = false) →
      (∀ i, i ≤ k → env.cancelledBefore (attempt + i) = false) →
      (∀ i, i < k → env.cancelledDuringWait (attempt + i) = false) →
      env.cancelledDuringWait (attempt + k) = true → k + 1 < r →
      runAttempts env attempt r inv = ⟨CycleExit.aborted, inv + k + 1, 0⟩ := by
  intro k
  induction k with
  | zero =>
    intro attempt inv r hfail hnb hnw hcan hlt
    match r, hlt with
    | m + 2, _ =>
      have h0 : env.taskResult attempt = false := by simpa using hfail 0 (by omega)
      have hb0 : env.cancelledBefore attempt = false := by simpa using hnb 0 (by omega)
      have hw0 : env.cancelledDuringWait attempt = true := by simpa using hcan
      simp [runAttempts, hb0, h0, hw0]
  | succ k ih =>
    intro attempt inv r hfail hnb hnw hcan hlt
    match r, hlt with
    | m + 2, _ =>
      have h0 : env.taskResult attempt = false := by simpa using hfail 0 (by omega)
      have hb0 : env.cancelledBefore attempt = false := by simpa using hnb 0 (by omega)
      have hw0 : env.cancelledDuringWait attempt = false := by simpa using hnw 0 (by omega)
      have hstep := ih (attempt + 1) (inv + 1) (m + 1)
        (fun i hi => by
          rw [show attempt + 1 + i = attempt + (i + 1) by omega]
          exact hfail (i + 1) (by omega))
        (fun i hi => by
          rw [show attempt + 1 + i = attempt + (i + 1) by omega]
          exact hnb (i + 1) (by omega))
        (fun i hi => by
          rw [show attempt + 1 + i = attempt + (i + 1) by omega]
          exact hnw (i + 1) (by omega))
        (by
          rw [show attempt + 1 + k = attempt + (k + 1) by omega]
          exact hcan)
        (by omega)
      simp only [runAttempts, hb0, h0, hw0, Bool.false_eq_true, if_false]
      rw [hstep]
      congr 1
      omega



/-- The attempt budget of `executeTaskWithRetries` at a non-negative
`MaxRetries`. -/
lemma executeTaskWithRetries_budget (env : CycleEnv) (n : Nat) :
    executeTaskWithRetries env (n : Int) = runAttempts env 0 (n + 1) 0 := by
  unfold executeTaskWithRetries
  have h : ((n : Int) + 1).toNat = n + 1 := by omega
  rw [h]

/-! ## Claim theorems -/

/-- C1: For every Task with MaxRetries = n ≥ 0, a cycle whose task function
errors on every attempt invokes it exactly n + 1 times and produces exactly
one permanent-failure log event; a cycle whose attempt `k` succeeds (all
earlier attempts failing) stops immediately after k + 1 invocations with no
permanent-failure log; and a cycle cancelled before an attempt or during
the inter-retry wait exits without a permanent-failure log event. -/
theorem cycle_retry_semantics (n k : Nat) (env : CycleEnv) :
    ((∀ i, env.taskResult i = false) → (∀ i, env.cancelledBefore i = false) →
      (∀ i, env.cancelledDuringWait i = false) →
      executeTaskWithRetries env (n : Int) =
        ⟨CycleExit.failedPermanently, n + 1, 1⟩)
    ∧ ((∀ i, i < k → env.taskResult i = false) → env.taskResult k = true →
      (∀ i, env.cancelledBefore i = false) →
      (∀ i, env.cancelledDuringWait i = false) → k ≤ n →
      executeTaskWithRetries env (n : Int) = ⟨CycleExit.succeeded, k + 1, 0⟩)
    ∧ ((∀ i, i < k → env.taskResult i = false) →
      (∀ i, i < k → env.cancelledBefore i = false) →
      (∀ i, env.cancelledDuringWait i = false) →
      env.cancelledBefore k = true → k ≤ n →
      executeTaskWithRetries env (n : Int) = ⟨CycleExit.aborted, k, 0⟩)
    ∧ ((∀ i, i ≤ k → env.taskResult i = false) →
      (∀ i, i ≤ k → env.cancelledBefore i = false) →
      (∀ i, i < k → env.cancelledDuringWait i = false) →
      env.cancelledDuringWait k = true → k < n →
      executeTaskWithRetries env (n : Int) = ⟨CycleExit.aborted, k + 1, 0⟩) := by
  refine ⟨fun hf hb hw => ?_, fun hfail hsucc hb hw hk => ?_,
    fun hfail hnb hw hcan hk => ?_, fun hfail hnb hnw hcan hk => ?_⟩
  · rw [executeTaskWithRetries_budget]
    simpa using runAttempts_allFail env hf hb hw (n + 1) 0 0
  · rw [executeTaskWithRetries_budget]
    simpa using runAttempts_firstSuccess env hb hw k 0 0 (n + 1)
      (fun i hi => by simpa using hfail i hi) (by simpa using hsucc) (by omega)
  · rw [executeTaskWithRetries_budget]
    simpa using runAttempts_cancelBefore env hw k 0 0 (n + 1)
      (fun i hi => by simpa using hfail i hi)
      (fun i hi => by simpa using hnb i hi) (by simpa using hcan) (by omega)
  · rw [executeTaskWithRetries_budget]
    simpa using runAttempts_cancelDuringWait env k 0 0 (n + 1)
      (fun i hi => by simpa using hfail i hi)
      (fun i hi => by simpa using hnb i hi)
      (fun i hi => by simpa using hnw i hi) (by simpa using hcan) (by omega)

/-- C1 witness: with MaxRetries = 2, a task failing on every attempt and no
cancellation, the cycle makes 3 invocations and one permanent-failure log. -/
theorem cycle_retry_semantics_witness :
    executeTaskWithRetries ⟨fun _ => false, fun _ => false, fun _ => false⟩ 2 =
      ⟨CycleExit.failedPermanently, 3, 1⟩ := by
  have h := (cycle_retry_semantics 2 0
    ⟨fun _ => false, fun _ => false, fun _ => false⟩).1
    (fun _ => rfl) (fun _ => rfl) (fun _ => rfl)
  simpa using h

/-- C2 counterexample: starting a fresh scheduler with a valid task but a
non-positive interval returns the invalid-interval error yet leaves the
scheduler marked running, so a subsequent `Start` with a valid interval
fails with the already-running error — the claim's "state is unchanged (it
is left not running), so a subsequent Start() with valid parameters can
succeed" is false. -/
theorem start_invalid_interval_leaves_running :
    (Start false 0 newTaskSchedulerState).2.1 = some StartError.invalidInterval ∧
    (Start false 0 newTaskSchedulerState).1.isRunning = true ∧
    (Start false 1 (Start false 0 newTaskSchedulerState).1).2.1 =
      some StartError.alreadyRunning := by
  decide

/-- C2 (amended): a failed `Start` returns an error and never launches the
dispatch loop, so no cycle is dispatched; after a nil-task failure the
state is unchanged and a subsequent valid `Start` succeeds; after a
non-positive-interval failure the scheduler is left marked running, a
subsequent valid `Start` fails with the already-running error, and only
after `Stop` does a valid `Start` succeed. -/
theorem start_failure_semantics (s : SchedulerState) (interval valid : Int) :
    (s.isRunning = false →
      Start true interval s = (s, some StartError.nilTask, false)) ∧
    (s.isRunning = false → 0 < valid →
      (Start false valid (Start true interval s).1).2.1 = none ∧
      (Start false valid (Start true interval s).1).2.2 = true) ∧
    (s.isRunning = false → interval ≤ 0 →
      Start false interval s =
        ({ s with isRunning := true }, some StartError.invalidInterval, false) ∧
      (Start false valid (Start false interval s).1).2.1 =
        some StartError.alreadyRunning ∧
      (0 < valid →
        (Start false valid (Stop (Start false interval s).1)).2.1 = none)) := by
  refine ⟨fun hr => ?_, fun hr hv => ?_, fun hr hi => ?_⟩
  · simp [Start, hr]
  · simp [Start, hr, not_le.mpr hv]
  · refine ⟨by simp [Start, hr, hi], by simp [Start, hr, hi], fun hv => ?_⟩
    simp [Start, Stop, hr, hi, not_le.mpr hv]

/-- C2 witness: concrete instance of the invalid-interval branch on a
fresh scheduler. -/
theorem start_failure_semantics_witness :
    Start false 0 newTaskSchedulerState =
      ({ newTaskSchedulerState with isRunning := true },
        some StartError.invalidInterval, false) ∧
    (Start false 1 (Start false 0 newTaskSchedulerState).1).2.1 =
      some StartError.alreadyRunning ∧
    ((0 : Int) < 1 →
      (Start false 1 (Stop (Start false 0 newTaskSchedulerState).1)).2.1 = none) :=
  (start_failure_semantics newTaskSchedulerState 0 1).2.2 rfl (by decide)

/-- C7: once `DisableNextExecution` sets the one-shot flag, the next tick
observed by the dispatch loop is skipped, the flag is cleared as it is
consumed, and every one of the `k` following ticks dispatches a cycle with
no `EnableExecution` call in between. -/
theorem disable_next_execution_one_shot (d : Bool) (k : Nat) :
    runLoop d (LoopEvent.disableNext :: LoopEvent.tick ::
        List.replicate k LoopEvent.tick) =
      false :: List.replicate k true := by
  have h : ∀ m, runLoop false (List.replicate m LoopEvent.tick) =
      List.replicate m true := by
    intro m
    induction m with
    | zero => rfl
    | succ m ih => simp [List.replicate_succ, runLoop, ih]
  simp [runLoop, h]

/-- C3: the unknown-routine error is NOT non-retryable — `ProcessMetric`
returns it like any other error and `executeTaskWithRetries` has no
non-retryable path, so with MaxRetries = 2 the task function is invoked 3
times for the cycle, consuming the whole retry budget, contrary to the
claim that the scheduler does not re-invoke the task function after the
unknown-routine error. -/
theorem unknown_go_function_consumes_retry_budget :
    ProcessMetric (some unknownFuncTask) world0 =
      (Except.error (CollectError.unknownGoFunction "collectUptime"), []) ∧
    executeTaskWithRetries
      ⟨fun _ => attemptOk (ProcessMetric (some unknownFuncTask) world0),
        fun _ => false, fun _ => false⟩ 2 =
      ⟨CycleExit.failedPermanently, 3, 1⟩ :=
  ⟨rfl, rfl⟩

/-- C4 counterexample: a script execution delivering zero rows (one JSON
column, no driver error) makes `ExecuteMetricValueGetScript` return a nil
value with a nil error, and the whole `sql` attempt reports success — it
does not fail with a named error condition as the claim states. -/
theorem zero_rows_reports_success :
    ExecuteMetricValueGetScript (QueryOutcome.ok ⟨["jsonb"], [], false⟩) =
      Except.ok none ∧
    executeSQLMetric sqlTask ⟨true, QueryOutcome.ok ⟨["jsonb"], [], false⟩, true⟩ =
      (Except.ok (), []) := by
  refine ⟨by decide, by decide⟩

/-- C4 (amended): a zero-row result fails with the distinct named
iteration error exactly when the driver reported an error during
iteration; a clean zero-row result is returned as success with a nil
value, the attempt reports success, and nothing is stored either way. -/
theorem zero_rows_semantics (task : MetricTask) (t : String)
    (ie insertOk : Bool) (ht : toLowerStr t = "jsonb" ∨ toLowerStr t = "json") :
    ExecuteMetricValueGetScript (QueryOutcome.ok ⟨[t], [], ie⟩) =
      (if ie then Except.error MetricScriptError.zeroRowsIterationError
        else Except.ok none) ∧
    executeSQLMetric task ⟨true, QueryOutcome.ok ⟨[t], [], ie⟩, insertOk⟩ =
      (if ie then
        (Except.error (CollectError.scriptError
          MetricScriptError.zeroRowsIterationError), [])
        else (Except.ok (), [])) := by
  unfold executeSQLMetric ExecuteMetricValueGetScript
  rcases ht with h | h <;> cases ie <;> simp [h]

/-- C4 witness: concrete zero-row instances with and without a driver
iteration error. -/
theorem zero_rows_semantics_witness :
    ExecuteMetricValueGetScript (QueryOutcome.ok ⟨["jsonb"], [], true⟩) =
      Except.error MetricScriptError.zeroRowsIterationError ∧
    executeSQLMetric sqlTask ⟨true, QueryOutcome.ok ⟨["jsonb"], [], true⟩, true⟩ =
      (Except.error (CollectError.scriptError
        MetricScriptError.zeroRowsIterationError), []) := by
  have h := zero_rows_semantics sqlTask "jsonb" true true (Or.inl (by decide))
  simpa using h

/-- C5: a result with more than one row, more than one column, or a single
column of a non-JSON-family type makes the `sql` attempt fail with a
contract-violation error, and `InsertMetricValue` is never called. -/
theorem sql_contract_violation_no_insert (task : MetricTask) (w : SqlWorld)
    (res : QueryResult) (hq : w.query = QueryOutcome.ok res)
    (hfile : w.fileOk = true)
    (hviol : 1 < res.rows.length ∨ 1 < res.colTypes.length ∨
      (∃ t, res.colTypes = [t] ∧ toLowerStr t ≠ "jsonb" ∧ toLowerStr t ≠ "json")) :
    ∃ e, contractViolation e = true ∧
      executeSQLMetric task w = (Except.error (CollectError.scriptError e), []) := by
  obtain ⟨colTypes, rows, iterErr⟩ := res
  unfold executeSQLMetric
  rw [hq, hfile]
  match colTypes, hviol with
  | [], hviol =>
    exact ⟨MetricScriptError.wrongColumnCount 0, rfl, by
      simp [ExecuteMetricValueGetScript]⟩
  | [t], hviol =>
    by_cases hjson : toLowerStr t = "jsonb" ∨ toLowerStr t = "json"
    · have hrows : 1 < rows.length := by
        rcases hviol with h | h | ⟨t', ht', h1, h2⟩
        · exact h
        · simp at h
        · rw [List.cons.injEq] at ht'
          rw [← ht'.1] at h1 h2
          rcases hjson with h | h
          · exact absurd h h1
          · exact absurd h h2
      match rows, hrows with
      | v :: v' :: rest, _ =>
        refine ⟨MetricScriptError.moreThanOneRow, rfl, ?_⟩
        rcases hjson with h | h <;> simp [ExecuteMetricValueGetScript, h]
    · push_neg at hjson
      refine ⟨MetricScriptError.wrongColumnType (toLowerStr t), rfl, ?_⟩
      simp [ExecuteMetricValueGetScript, hjson.1, hjson.2]
  | t1 :: t2 :: restT, hviol =>
    exact ⟨MetricScriptError.wrongColumnCount (t1 :: t2 :: restT).length, rfl, by
      simp [ExecuteMetricValueGetScript]⟩

/-- C5 witness: two rows with one JSON column fail with the
more-than-one-row violation and no insert call. -/
theorem sql_contract_violation_no_insert_witness :
    ∃ e, contractViolation e = true ∧
      executeSQLMetric sqlTask
        ⟨true, QueryOutcome.ok ⟨["jsonb"], [some "1", some "2"], false⟩, true⟩ =
        (Except.error (CollectError.scriptError e), []) :=
  sql_contract_violation_no_insert sqlTask
    ⟨true, QueryOutcome.ok ⟨["jsonb"], [some "1", some "2"], false⟩, true⟩
    ⟨["jsonb"], [some "1", some "2"], false⟩ rfl rfl (Or.inl (by decide))

/-- C6: a script returning exactly one row with one JSON-family column
holding SQL NULL completes the attempt successfully with zero
`InsertMetricValue` calls, whatever the store would have answered. -/
theorem sql_null_value_success_no_write (task : MetricTask) (t : String)
    (insertOk : Bool) (ht : toLowerStr t = "jsonb" ∨ toLowerStr t = "json") :
    executeSQLMetric task ⟨true, QueryOutcome.ok ⟨[t], [none], false⟩, insertOk⟩ =
      (Except.ok (), []) := by
  unfold executeSQLMetric ExecuteMetricValueGetScript
  rcases ht with h | h <;> simp [h]

/-- C6 witness: concrete NULL-value instance. -/
theorem sql_null_value_success_no_write_witness :
    executeSQLMetric sqlTask
      ⟨true, QueryOutcome.ok ⟨["json"], [none], false⟩, false⟩ =
      (Except.ok (), []) :=
  sql_null_value_success_no_write sqlTask "json" false (Or.inr (by decide))

/-- C8: whenever the uptime query fails (for any of the script error
conditions) and the sentinel insert is accepted by the store,
`collectPostgresUptime` inserts exactly the sentinel zero payload and
returns success, so a cycle running it succeeds on its first attempt and
is never retried. -/
theorem uptime_failure_absorption (task : MetricTask) (w : UptimeWorld)
    (e : MetricScriptError)
    (hq : ExecuteMetricValueGetScript w.query = Except.error e)
    (hins : w.insertZeroOk = true) :
    collectPostgresUptime task w =
      (Except.ok (), [⟨task.metricId, task.serverId, zeroUptimeValue⟩]) ∧
    ∀ n : Nat, executeTaskWithRetries
      ⟨fun _ => attemptOk (collectPostgresUptime task w),
        fun _ => false, fun _ => false⟩ (n : Int) =
      ⟨CycleExit.succeeded, 1, 0⟩ := by
  have h1 : collectPostgresUptime task w =
      (Except.ok (), [⟨task.metricId, task.serverId, zeroUptimeValue⟩]) := by
    unfold collectPostgresUptime
    rw [hq]
    simp [hins]
  refine ⟨h1, fun n => ?_⟩
  rw [executeTaskWithRetries_budget]
  have hs := runAttempts_firstSuccess
    ⟨fun _ => attemptOk (collectPostgresUptime task w),
      fun _ => false, fun _ => false⟩
    (fun _ => rfl) (fun _ => rfl) 0 0 0 (n + 1)
    (fun i hi => by omega) (by simp [h1, attemptOk]) (by omega)
  simpa using hs

/-- C8 witness: concrete failed probe with an accepting store. -/
theorem uptime_failure_absorption_witness :
    collectPostgresUptime uptimeTask ⟨QueryOutcome.execFailure false, true, true⟩ =
      (Except.ok (),
        [⟨uptimeTask.metricId, uptimeTask.serverId, zeroUptimeValue⟩]) ∧
    executeTaskWithRetries
      ⟨fun _ => attemptOk (collectPostgresUptime uptimeTask
          ⟨QueryOutcome.execFailure false, true, true⟩),
        fun _ => false, fun _ => false⟩ ((2 : Nat) : Int) =
      ⟨CycleExit.succeeded, 1, 0⟩ := by
  have h := uptime_failure_absorption uptimeTask
    ⟨QueryOutcome.execFailure false, true, true⟩
    MetricScriptError.executeFailed rfl rfl
  exact ⟨h.1, h.2 2⟩

/-- C9: the `execute format(...)` of `create_metric_partition` uses the
type specifiers `%i` and `%l`, which PostgreSQL `format()` rejects (only
`%s`, `%I`, `%L` are recognised, case-sensitively, as the sibling
`drop_old_metric_partitions` uses correctly), so the function raises the
unrecognised-specifier error whenever any partition in the window actually
needs creating; it only completes when every partition already exists. -/
theorem create_partition_format_specifier_error :
    pgFormatValid createPartitionFmt.toList = false ∧
    pgFormatValid dropPartitionFmt.toList = true ∧
    create_metric_partition 600 6 [] =
      Except.error PgError.unrecognizedFormatSpecifier ∧
    create_metric_partition 600 0 [600] = Except.ok [600] := by
  refine ⟨by decide, by decide, by decide, by decide⟩

/-- C10: when the uptime query fails and the sentinel-zero insert also
fails, `collectPostgresUptime` returns the insert error to the scheduler,
so the cycle fails and falls under the normal retry policy. -/
theorem uptime_sentinel_insert_failure_propagates (task : MetricTask)
    (w : UptimeWorld) (e : MetricScriptError)
    (hq : ExecuteMetricValueGetScript w.query = Except.error e)
    (hins : w.insertZeroOk = false) :
    collectPostgresUptime task w =
      (Except.error CollectError.insertError,
        [⟨task.metricId, task.serverId, zeroUptimeValue⟩]) ∧
    attemptOk (collectPostgresUptime task w) = false := by
  have h1 : collectPostgresUptime task w =
      (Except.error CollectError.insertError,
        [⟨task.metricId, task.serverId, zeroUptimeValue⟩]) := by
    unfold collectPostgresUptime
    rw [hq]
    simp [hins]
  exact ⟨h1, by simp [h1, attemptOk]⟩

/-- C10 witness: concrete failed probe with a store that rejects the
sentinel insert. -/
theorem uptime_sentinel_insert_failure_propagates_witness :
    collectPostgresUptime uptimeTask
      ⟨QueryOutcome.execFailure true, false, true⟩ =
      (Except.error CollectError.insertError,
        [⟨uptimeTask.metricId, uptimeTask.serverId, zeroUptimeValue⟩]) := by
  have h := uptime_sentinel_insert_failure_propagates uptimeTask
    ⟨QueryOutcome.execFailure true, false, true⟩
    MetricScriptError.queryTimedOut rfl rfl
  exact h.1

end Elmon
